import Mathlib

/-!
Verification development for the `uv-workspace-demo` repository.

The embedded core is:
  * `src/libs/core/src/core/cloud_manager.py` — the `CloudManager` facade,
    its AWS implementation `AWSCloudManager`, and the provider enum;
  * `src/libs/core/src/core/database.py` — the `Database` session-scope helper;
  * `src/apps/dl-archiver/src/dl_archiver/config.py` — the provider selector.

Modelling choices:
  * Lazily cached attributes (`_manager`, `_s3_client`) become `Option` fields
    of explicit state records; every method is a pure state transformer that
    additionally returns the list of SDK-level events (`Ev`) it performed, in
    order.  Python's dynamic typing of the `provider` argument is modelled by
    `ProviderTag`, which has the one enum member (`aws`) plus arbitrary other
    runtime values.
  * Calling an attribute on Python's `None` (the un-constructed manager)
    becomes the explicit error value `PyError.attributeErrorNone`.
  * The S3 service itself is not part of the repository; where a claim speaks
    about resulting object-store state, the S3 call events are interpreted
    against a simple store model (`S3Api.apply`), documented at its definition.
  * `list_dir` is a Python generator; it is modelled as fully consumed: the
    returned keys are computed from the paginator's pages, which are supplied
    as an environment input (`List S3Page`).
-/

/-- Embeds `AWSConfig` (a `TypedDict` with `total=False`): every field may be
absent or `None`, which is modelled uniformly as `Option`. Field order follows
the source. -/
structure AWSConfig where
  aws_region_name : Option String
  aws_access_key_id : Option String
  aws_secret_key_id : Option String
  aws_session_token : Option String
  aws_profile_name : Option String
  deriving DecidableEq, Repr

/-- The boto3 S3 client as observable from this code base: it is determined by
the `boto3.Session(profile_name=...)` it came from and the `region_name`
passed to `session.client("s3", region_name=...)`. -/
structure S3Client where
  profile_name : Option String
  region_name : String
  deriving DecidableEq, Repr

/-- One SDK-level call performed by the embedded code, in program order:
constructor calls of the lazy caches and every S3 API invocation. -/
inductive Ev where
  | constructAWSManager (config : AWSConfig)
  | botoSession (profile_name : Option String)
  | s3ClientOf (profile_name : Option String) (region_name : String)
  | uploadFile (client : S3Client) (file_path bucket_name object_key : String)
  | downloadFile (client : S3Client) (bucket_name object_key file_path : String)
  | copyObject (client : S3Client) (dest_bucket_name dest_object_key copy_source : String)
  | deleteObjectCall (client : S3Client) (bucket_name object_key : String)
  | getPaginator (client : S3Client)
  | paginate (client : S3Client) (bucket_name pfx : String)
  deriving DecidableEq, Repr

/-- An S3 API call proper (client construction events projected away).
Constructor names follow the boto3 method names used in the source. -/
inductive S3Api where
  | upload_file (file_path bucket_name object_key : String)
  | download_file (bucket_name object_key file_path : String)
  | copy_object (dest_bucket_name dest_object_key copy_source : String)
  | delete_object (bucket_name object_key : String)
  | list_objects_v2 (bucket_name pfx : String)
  deriving DecidableEq, Repr

/-- Projects an event to the S3 API call it performs, if any. -/
def Ev.toApi : Ev → Option S3Api
  | .uploadFile _ fp b k => some (.upload_file fp b k)
  | .downloadFile _ b k fp => some (.download_file b k fp)
  | .copyObject _ db dk src => some (.copy_object db dk src)
  | .deleteObjectCall _ b k => some (.delete_object b k)
  | .paginate _ b p => some (.list_objects_v2 b p)
  | _ => none

/-- The S3 API calls contained in a trace, in order. -/
def s3Calls (evs : List Ev) : List S3Api := evs.filterMap Ev.toApi

/-- One entry of a `list_objects_v2` page's `Contents` list; S3 always
populates `Key`. -/
structure S3Obj where
  Key : String
  deriving DecidableEq, Repr

/-- One page returned by the paginator.  The `Contents` field is absent
(`none`) on an empty listing, which is exactly what the source's
`page.get("Contents", [])` guards against. -/
structure S3Page where
  Contents : Option (List S3Obj)
  deriving DecidableEq, Repr

/-- Embeds the generator body of `AWSCloudManager.list_dir`:
`for page in pages: for obj in page.get("Contents", []): yield obj["Key"]`. -/
def listKeys : List S3Page → List String
  | [] => []
  | page :: rest => (page.Contents.getD []).map S3Obj.Key ++ listKeys rest

/-- Embeds the state of an `AWSCloudManager` instance, as set up by
`AWSCloudManager.__init__` plus the lazily cached `_s3_client`. -/
structure AWSCloudManager where
  region_name : String
  profile_name : Option String
  access_key_id : Option String
  secret_key_id : Option String
  session_token : Option String
  _s3_client : Option S3Client
  deriving DecidableEq, Repr

/-- Embeds `AWSCloudManager.__init__`: copies the config fields, with the
region defaulting to `"us-east-1"`, and leaves `_s3_client` unset. -/
def AWSCloudManager.init (config : AWSConfig) : AWSCloudManager :=
  { region_name := config.aws_region_name.getD "us-east-1"
    profile_name := config.aws_profile_name
    access_key_id := config.aws_access_key_id
    secret_key_id := config.aws_secret_key_id
    session_token := config.aws_session_token
    _s3_client := none }

/-- Embeds the `s3_client` property: on a cache miss it constructs
`boto3.Session(profile_name=...)` and `session.client("s3", region_name=...)`
and stores the client; on a hit it returns the cached client with no SDK
activity. -/
def AWSCloudManager.s3_client (m : AWSCloudManager) :
    S3Client × AWSCloudManager × List Ev :=
  match m._s3_client with
  | some c => (c, m, [])
  | none =>
    let c : S3Client := { profile_name := m.profile_name, region_name := m.region_name }
    (c, { m with _s3_client := some c },
      [Ev.botoSession m.profile_name, Ev.s3ClientOf m.profile_name m.region_name])

/-- Embeds `AWSCloudManager.upload_object`:
`self.s3_client.upload_file(file_path, bucket_name, object_key)`. -/
def AWSCloudManager.upload_object (m : AWSCloudManager)
    (file_path bucket_name object_key : String) : AWSCloudManager × List Ev :=
  let r := m.s3_client
  (r.2.1, r.2.2 ++ [Ev.uploadFile r.1 file_path bucket_name object_key])

/-- Embeds `AWSCloudManager.download_object`:
`self.s3_client.download_file(bucket_name, object_key, file_path)`. -/
def AWSCloudManager.download_object (m : AWSCloudManager)
    (bucket_name object_key file_path : String) : AWSCloudManager × List Ev :=
  let r := m.s3_client
  (r.2.1, r.2.2 ++ [Ev.downloadFile r.1 bucket_name object_key file_path])

/-- Embeds `AWSCloudManager.delete_object`:
`self.s3_client.delete_object(Bucket=bucket_name, Key=object_key)`. -/
def AWSCloudManager.delete_object (m : AWSCloudManager)
    (bucket_name object_key : String) : AWSCloudManager × List Ev :=
  let r := m.s3_client
  (r.2.1, r.2.2 ++ [Ev.deleteObjectCall r.1 bucket_name object_key])

/-- Embeds `AWSCloudManager.move_object`, exactly as written in the source:
`self.upload_object(bucket_name, object_key, dest_object_key)` followed, when
`delete_source`, by `self.delete_object(bucket_name, object_key)`.  (The
source has default `delete_source=True`; callers here pass it explicitly.) -/
def AWSCloudManager.move_object (m : AWSCloudManager)
    (bucket_name object_key dest_object_key : String) (delete_source : Bool) :
    AWSCloudManager × List Ev :=
  let r1 := m.upload_object bucket_name object_key dest_object_key
  if delete_source then
    let r2 := r1.1.delete_object bucket_name object_key
    (r2.1, r1.2 ++ r2.2)
  else r1

/-- Embeds `AWSCloudManager.transfer_object`: builds
`copy_source = f"{bucket_name}/{object_key}"`, calls
`copy_object(Bucket=dest_bucket_name, Key=dest_object_key, CopySource=copy_source)`,
then optionally `delete_object(bucket_name, object_key)`. -/
def AWSCloudManager.transfer_object (m : AWSCloudManager)
    (bucket_name object_key dest_bucket_name dest_object_key : String)
    (delete_source : Bool) : AWSCloudManager × List Ev :=
  let copy_source := bucket_name ++ "/" ++ object_key
  let r := m.s3_client
  let r1 : AWSCloudManager × List Ev :=
    (r.2.1, r.2.2 ++ [Ev.copyObject r.1 dest_bucket_name dest_object_key copy_source])
  if delete_source then
    let r2 := r1.1.delete_object bucket_name object_key
    (r2.1, r1.2 ++ r2.2)
  else r1

/-- Embeds `AWSCloudManager.list_dir` (run to completion, with the paginator's
pages supplied as an environment input): obtains the paginator from
`s3_client` and yields the keys of every page's `Contents`. -/
def AWSCloudManager.list_dir (m : AWSCloudManager) (bucket_name pfx : String)
    (pages : List S3Page) : List String × AWSCloudManager × List Ev :=
  let r := m.s3_client
  (listKeys pages, r.2.1,
    r.2.2 ++ [Ev.getPaginator r.1, Ev.paginate r.1 bucket_name pfx])

/-- One public cloud-manager operation together with its arguments (for
`listDir`, also the pages the paginator would return). -/
inductive Op where
  | upload (file_path bucket_name object_key : String)
  | download (bucket_name object_key file_path : String)
  | move (bucket_name object_key dest_object_key : String) (delete_source : Bool)
  | transfer (bucket_name object_key dest_bucket_name dest_object_key : String)
      (delete_source : Bool)
  | delete (bucket_name object_key : String)
  | listDir (bucket_name pfx : String) (pages : List S3Page)
  deriving DecidableEq, Repr

/-- Dispatches one operation on an `AWSCloudManager`. -/
def AWSCloudManager.runOp (m : AWSCloudManager) : Op → AWSCloudManager × List Ev
  | .upload fp b k => m.upload_object fp b k
  | .download b k fp => m.download_object b k fp
  | .move b k dk d => m.move_object b k dk d
  | .transfer b k db dk d => m.transfer_object b k db dk d
  | .delete b k => m.delete_object b k
  | .listDir b pfx pages =>
    let r := m.list_dir b pfx pages
    (r.2.1, r.2.2)

/-- Runs a sequence of operations on an `AWSCloudManager`, threading the state
and concatenating the traces. -/
def AWSCloudManager.runOps (m : AWSCloudManager) : List Op → AWSCloudManager × List Ev
  | [] => (m, [])
  | op :: rest =>
    let r := m.runOp op
    let r2 := r.1.runOps rest
    (r2.1, r.2 ++ r2.2)

/-- Embeds the `CloudProvider` enum of the source, which has exactly one
member, `AWS = "aws"` (the others are commented out). -/
inductive CloudProvider where
  | aws
  deriving DecidableEq, Repr

/-- Embeds the `.value` of an enum member. -/
def CloudProvider.value : CloudProvider → String
  | .aws => "aws"

/-- Embeds the `CloudProvider(value)` enum lookup: succeeds exactly on the
member values, otherwise Python raises `ValueError`. -/
def CloudProvider.fromValue (s : String) : Option CloudProvider :=
  if s = "aws" then some .aws else none

/-- A runtime value passed as `CloudManager`'s `provider` argument.  Python
does not enforce the annotation, so besides the enum member any other value
can arrive; all of those fall through the `match` in `CloudManager.manager`. -/
inductive ProviderTag where
  | aws
  | other (value : String)
  deriving DecidableEq, Repr

/-- The runtime tag of an actual enum member. -/
def CloudProvider.toTag : CloudProvider → ProviderTag
  | .aws => .aws

/-- The Python error raised by an attribute access on `None`
(`AttributeError`), as happens when `CloudManager.manager` returns an
un-constructed `_manager`. -/
inductive PyError where
  | attributeErrorNone
  deriving DecidableEq, Repr

/-- Embeds the state of a `CloudManager` instance. -/
structure CloudManager where
  _provider : ProviderTag
  _config : AWSConfig
  _manager : Option AWSCloudManager
  deriving DecidableEq, Repr

/-- Embeds `CloudManager.__init__`. -/
def CloudManager.init (provider : ProviderTag) (config : AWSConfig) : CloudManager :=
  { _provider := provider, _config := config, _manager := none }

/-- Embeds the `manager` property: on a cache miss it matches the provider;
`CloudProvider.AWS` constructs `AWSCloudManager(self._config)` and caches it,
any other value matches no case so `_manager` stays `None` and `None` is
returned. -/
def CloudManager.manager (cm : CloudManager) :
    Option AWSCloudManager × CloudManager × List Ev :=
  match cm._manager with
  | some m => (some m, cm, [])
  | none =>
    match cm._provider with
    | .aws =>
      let m := AWSCloudManager.init cm._config
      (some m, { cm with _manager := some m }, [Ev.constructAWSManager cm._config])
    | .other _ => (none, cm, [])

/-- Embeds `CloudManager.upload_object`:
`self.manager.upload_object(file_path, bucket_name, object_key)`; an attribute
access on a `None` manager raises. -/
def CloudManager.upload_object (cm : CloudManager)
    (file_path bucket_name object_key : String) :
    Option PyError × CloudManager × List Ev :=
  let r := cm.manager
  match r.1 with
  | none => (some PyError.attributeErrorNone, r.2.1, r.2.2)
  | some m =>
    let r2 := m.upload_object file_path bucket_name object_key
    (none, { r.2.1 with _manager := some r2.1 }, r.2.2 ++ r2.2)

/-- Embeds `CloudManager.download_object`. -/
def CloudManager.download_object (cm : CloudManager)
    (bucket_name object_key file_path : String) :
    Option PyError × CloudManager × List Ev :=
  let r := cm.manager
  match r.1 with
  | none => (some PyError.attributeErrorNone, r.2.1, r.2.2)
  | some m =>
    let r2 := m.download_object bucket_name object_key file_path
    (none, { r.2.1 with _manager := some r2.1 }, r.2.2 ++ r2.2)

/-- Embeds `CloudManager.move_object`. -/
def CloudManager.move_object (cm : CloudManager)
    (bucket_name object_key dest_object_key : String) (delete_source : Bool) :
    Option PyError × CloudManager × List Ev :=
  let r := cm.manager
  match r.1 with
  | none => (some PyError.attributeErrorNone, r.2.1, r.2.2)
  | some m =>
    let r2 := m.move_object bucket_name object_key dest_object_key delete_source
    (none, { r.2.1 with _manager := some r2.1 }, r.2.2 ++ r2.2)

/-- Embeds `CloudManager.transfer_object`. -/
def CloudManager.transfer_object (cm : CloudManager)
    (bucket_name object_key dest_bucket_name dest_object_key : String)
    (delete_source : Bool) : Option PyError × CloudManager × List Ev :=
  let r := cm.manager
  match r.1 with
  | none => (some PyError.attributeErrorNone, r.2.1, r.2.2)
  | some m =>
    let r2 := m.transfer_object bucket_name object_key dest_bucket_name
      dest_object_key delete_source
    (none, { r.2.1 with _manager := some r2.1 }, r.2.2 ++ r2.2)

/-- Embeds `CloudManager.delete_object`. -/
def CloudManager.delete_object (cm : CloudManager)
    (bucket_name object_key : String) : Option PyError × CloudManager × List Ev :=
  let r := cm.manager
  match r.1 with
  | none => (some PyError.attributeErrorNone, r.2.1, r.2.2)
  | some m =>
    let r2 := m.delete_object bucket_name object_key
    (none, { r.2.1 with _manager := some r2.1 }, r.2.2 ++ r2.2)

/-- Embeds `CloudManager.list_dir` (run to completion like
`AWSCloudManager.list_dir`), additionally returning the yielded keys. -/
def CloudManager.list_dir (cm : CloudManager) (bucket_name pfx : String)
    (pages : List S3Page) :
    Option PyError × List String × CloudManager × List Ev :=
  let r := cm.manager
  match r.1 with
  | none => (some PyError.attributeErrorNone, [], r.2.1, r.2.2)
  | some m =>
    let r2 := m.list_dir bucket_name pfx pages
    (none, r2.1, { r.2.1 with _manager := some r2.2.1 }, r.2.2 ++ r2.2.2)

/-- Dispatches one operation on a `CloudManager`. -/
def CloudManager.runOp (cm : CloudManager) :
    Op → Option PyError × CloudManager × List Ev
  | .upload fp b k => cm.upload_object fp b k
  | .download b k fp => cm.download_object b k fp
  | .move b k dk d => cm.move_object b k dk d
  | .transfer b k db dk d => cm.transfer_object b k db dk d
  | .delete b k => cm.delete_object b k
  | .listDir b pfx pages =>
    let r := cm.list_dir b pfx pages
    (r.1, r.2.2.1, r.2.2.2)

/-- Runs a sequence of operations on a `CloudManager`, stopping at the first
raised error (as a straight-line Python caller would). -/
def CloudManager.runOps (cm : CloudManager) :
    List Op → Option PyError × CloudManager × List Ev
  | [] => (none, cm, [])
  | op :: rest =>
    let r := cm.runOp op
    match r.1 with
    | some e => (some e, r.2.1, r.2.2)
    | none =>
      let r2 := r.2.1.runOps rest
      (r2.1, r2.2.1, r.2.2 ++ r2.2.2)

/-- The local filesystem as seen by `upload_file`: a path either holds data or
is missing. -/
def FileSys : Type := String → Option String

/-- The S3 object store: each (bucket, key) address either holds an object's
data or is empty. -/
def Store : Type := String × String → Option String

/-- Pointwise update of the store. -/
def Store.set (σ : Store) (loc : String × String) (v : Option String) : Store :=
  fun l => if l = loc then v else σ l

/-- Splits a character list at its first `'/'`, if any. -/
def splitAtFirstSlash : List Char → Option (List Char × List Char)
  | [] => none
  | c :: rest =>
    if c = '/' then some ([], rest)
    else (splitAtFirstSlash rest).map (fun p => (c :: p.1, p.2))

/-- How S3 reads a string `CopySource`: everything before the first `/` is the
source bucket, the remainder is the source key.  A string with no `/` is not a
valid copy source. -/
def parseCopySource (s : String) : Option (String × String) :=
  (splitAtFirstSlash s.data).map (fun p => (String.mk p.1, String.mk p.2))

/-- The effect of one S3 API call on the store, given the local filesystem.
This models the service the code talks to (it is not part of the repository):
`upload_file` stores the named local file's data and fails if the file is
missing; `download_file` fails if the object is missing; `copy_object` copies
the data addressed by its parsed `CopySource` and fails if the source is
missing; `delete_object` always succeeds; listing does not change the store. -/
def S3Api.apply (fs : FileSys) (σ : Store) : S3Api → Option Store
  | .upload_file fp b k => (fs fp).map (fun data => σ.set (b, k) (some data))
  | .download_file b k _ => (σ (b, k)).map (fun _ => σ)
  | .copy_object db dk src =>
    match parseCopySource src with
    | none => none
    | some loc => (σ loc).map (fun v => σ.set (db, dk) (some v))
  | .delete_object b k => some (σ.set (b, k) none)
  | .list_objects_v2 _ _ => some σ

/-- Applies a list of S3 calls in order, stopping at the first failure. -/
def S3Api.applyAll (fs : FileSys) (σ : Store) : List S3Api → Option Store
  | [] => some σ
  | a :: rest =>
    match S3Api.apply fs σ a with
    | none => none
    | some σ2 => S3Api.applyAll fs σ2 rest

/-- A SQLAlchemy `Engine`, observable through the URL it was created from. -/
structure Engine where
  url : String
  deriving DecidableEq, Repr

/-- Embeds `create_engine(url, echo=False)`. -/
def create_engine (url : String) : Engine := { url := url }

/-- A `sessionmaker`, observable through the engine it is bound to. -/
structure Sessionmaker where
  bind : Engine
  deriving DecidableEq, Repr

/-- Embeds `sessionmaker(bind=..., autocommit=False, autoflush=False)`. -/
def sessionmaker (bind : Engine) : Sessionmaker := { bind := bind }

/-- Embeds the state of a `Database` instance. -/
structure Database where
  _db : Engine
  _db_ro : Option Engine
  _session : Sessionmaker
  _session_ro : Option Sessionmaker
  deriving DecidableEq, Repr

/-- Embeds `Database.__init__`: one engine per URL provided, one sessionmaker
per engine. -/
def Database.init (write_url : String) (readonly_url : Option String) : Database :=
  let db := create_engine write_url
  let db_ro := readonly_url.map create_engine
  { _db := db
    _db_ro := db_ro
    _session := sessionmaker db
    _session_ro := db_ro.map sessionmaker }

/-- One call on a session object, tagged with the sessionmaker (hence the
pool) the session came from. -/
inductive DBEvent where
  | createSession (sm : Sessionmaker)
  | commit (sm : Sessionmaker)
  | rollback (sm : Sessionmaker)
  | close (sm : Sessionmaker)
  deriving DecidableEq, Repr

/-- The environment's behaviour during one session scope: what the `with`
body does with the yielded session, and whether the `commit()` / `rollback()`
calls themselves raise (`some e`) or return normally (`none`). -/
structure SessionBehavior (ε α : Type) where
  body : Except ε α
  commitResult : Option ε
  rollbackResult : Option ε

/-- The outcome of one session scope as seen by the caller. -/
inductive ScopeResult (ε α : Type) where
  | ok (a : α)
  | raised (e : ε)
  | configError (msg : String)
  deriving DecidableEq

/-- Embeds the `try/except/finally` of `Database.session` once a session has
been created from sessionmaker `sm`: the body runs; on normal return `commit()`
is called; on any exception (from the body, or from a failing commit)
`rollback()` is called and `raise` re-raises — unless `rollback()` itself
raises, in which case that exception propagates; `close()` runs on every
path. -/
def runScope {ε α : Type} (sm : Sessionmaker) (beh : SessionBehavior ε α) :
    List DBEvent × ScopeResult ε α :=
  match beh.body with
  | .ok a =>
    match beh.commitResult with
    | none => ([.createSession sm, .commit sm, .close sm], .ok a)
    | some e1 =>
      match beh.rollbackResult with
      | none => ([.createSession sm, .commit sm, .rollback sm, .close sm], .raised e1)
      | some e2 => ([.createSession sm, .commit sm, .rollback sm, .close sm], .raised e2)
  | .error e0 =>
    match beh.rollbackResult with
    | none => ([.createSession sm, .rollback sm, .close sm], .raised e0)
    | some e2 => ([.createSession sm, .rollback sm, .close sm], .raised e2)

/-- Embeds the pool selection at the top of `Database.session`:
`if readonly and self._session_ro:` picks the readonly sessionmaker,
`elif not readonly:` picks the write sessionmaker, `else:` raises. -/
def Database.chooseSessionmaker (db : Database) (readonly : Bool) :
    Option Sessionmaker :=
  match readonly, db._session_ro with
  | true, some sm => some sm
  | false, _ => some db._session
  | true, none => none

/-- Embeds `Database.session(readonly)` as a whole: selects the sessionmaker
(raising `RuntimeError` with the source's message when readonly is requested
without a readonly pool, before any session exists), then runs the scope. -/
def Database.sessionScope {ε α : Type} (db : Database) (readonly : Bool)
    (beh : SessionBehavior ε α) : List DBEvent × ScopeResult ε α :=
  match db.chooseSessionmaker readonly with
  | some sm => runScope sm beh
  | none =>
    ([], .configError
      "Readonly connection not configured. Provide readonly_url when initializing the database.")

/-- Embeds Python's `str.lower()`: lower-cases each character.  (For the
ASCII selector values compared here the two agree; Python's extra Unicode
case mappings are irrelevant to the `== "aws"` comparison's true cases used
below.) -/
def pyLower (s : String) : String := String.mk (s.data.map Char.toLower)

/-- Embeds `Config.cloud_provider` from `dl_archiver/config.py`:
`if not self._provider_name:` (absent or empty string) raises the
missing-selector error; otherwise `CloudProvider(name.lower())` either
resolves or raises the invalid-provider error, whose message interpolates the
list of valid provider values (`['aws']`). -/
def Config.cloud_provider (provider_name : Option String) :
    Except String CloudProvider :=
  match provider_name with
  | none => Except.error "CLOUD_PROVIDER environment variable is not set"
  | some s =>
    if s = "" then Except.error "CLOUD_PROVIDER environment variable is not set"
    else
      match CloudProvider.fromValue (pyLower s) with
      | some p => Except.ok p
      | none =>
        Except.error ("Invalid cloud provider: " ++ s ++ ". Valid providers: ['aws']")

/-- Whether `sub` occurs as a contiguous sublist. -/
def hasSub (sub : List Char) : List Char → Bool
  | [] => sub.isEmpty
  | c :: rest => sub.isPrefixOf (c :: rest) || hasSub sub rest

/-- Whether the string `sub` occurs inside `msg`. -/
def mentions (msg sub : String) : Bool := hasSub sub.data msg.data

/-- Embeds the cloud part of `dl_archiver.main`:
`cm = CloudManager(config.cloud_provider, config.provider_config)` followed by
`cm.upload_object("test.txt", "test-bucket", "test.txt")` — the
`config.cloud_provider` property runs first, so when it raises, no
`CloudManager` is constructed and no operation is attempted. -/
def archiverCloudStep (provider_name : Option String) (config : AWSConfig) :
    Except String (Option PyError × CloudManager × List Ev) :=
  match Config.cloud_provider provider_name with
  | Except.error e => Except.error e
  | Except.ok p =>
    let cm := CloudManager.init p.toTag config
    Except.ok (cm.upload_object "test.txt" "test-bucket" "test.txt")

/-- Is this event a construction of a concrete (provider-level) manager? -/
def Ev.isManagerConstruct : Ev → Bool
  | .constructAWSManager _ => true
  | _ => false

/-- Is this event a construction of the underlying network (S3) client? -/
def Ev.isClientConstruct : Ev → Bool
  | .s3ClientOf _ _ => true
  | _ => false

/-- Number of concrete-manager constructions in a trace. -/
def countManagerConstructs (evs : List Ev) : Nat :=
  (evs.filter Ev.isManagerConstruct).length

/-- Number of S3-client constructions in a trace. -/
def countClientConstructs (evs : List Ev) : Nat :=
  (evs.filter Ev.isClientConstruct).length

theorem countManagerConstructs_append (a b : List Ev) :
    countManagerConstructs (a ++ b) = countManagerConstructs a + countManagerConstructs b := by
  simp [countManagerConstructs, List.filter_append]

theorem countClientConstructs_append (a b : List Ev) :
    countClientConstructs (a ++ b) = countClientConstructs a + countClientConstructs b := by
  simp [countClientConstructs, List.filter_append]

/-- C1. `move_object(b, k, dk, d)` calls `upload_file` with `b` as the local
path, `k` as the bucket and `dk` as the key, and then calls `delete_object`
on `(b, k)` exactly when `d` is true. -/
theorem C1_move_object_misuses_upload (m : AWSCloudManager)
    (b k dk : String) (d : Bool) :
    s3Calls (m.move_object b k dk d).2
      = S3Api.upload_file b k dk :: (if d then [S3Api.delete_object b k] else []) := by
  cases h : m._s3_client <;> cases d <;>
    simp [AWSCloudManager.move_object, AWSCloudManager.upload_object,
      AWSCloudManager.delete_object, AWSCloudManager.s3_client, h,
      s3Calls, Ev.toApi]

/-- C2. A `Database` built without a readonly URL answers
`session(readonly=True)` with the configuration `RuntimeError` before any
session is created: the returned trace is empty (in particular the write
sessionmaker is never used) and the result is the configuration error, for
every possible body behaviour. -/
theorem C2_readonly_without_pool_fails_fast (write_url : String)
    {ε α : Type} (beh : SessionBehavior ε α) :
    (Database.init write_url none).sessionScope true beh
      = ([], ScopeResult.configError
          "Readonly connection not configured. Provide readonly_url when initializing the database.") := by
  rfl

/-- C4. A `CloudManager` whose provider tag is any runtime value other than
the enum member `CloudProvider.AWS` never constructs a concrete client: the
`manager` property returns `None` leaving the state untouched, and any
non-empty sequence of operation calls stops at the first call with the
`AttributeError` of an attribute access on `None`, with an empty event
trace. -/
theorem C4_unsupported_provider_attribute_error (s : String) (cfg : AWSConfig)
    (op : Op) (ops : List Op) :
    (CloudManager.init (ProviderTag.other s) cfg).manager
        = (none, CloudManager.init (ProviderTag.other s) cfg, [])
      ∧ (CloudManager.init (ProviderTag.other s) cfg).runOps (op :: ops)
        = (some PyError.attributeErrorNone,
            CloudManager.init (ProviderTag.other s) cfg, []) := by
  refine ⟨rfl, ?_⟩
  cases op <;>
    simp [CloudManager.runOps, CloudManager.runOp, CloudManager.manager,
      CloudManager.init, CloudManager.upload_object, CloudManager.download_object,
      CloudManager.move_object, CloudManager.transfer_object,
      CloudManager.delete_object, CloudManager.list_dir]

/-- C10. `list_dir` yields exactly the concatenation, in page order, of the
keys under each page's `Contents`, and a page lacking the `Contents` field
contributes no keys instead of failing. -/
theorem C10_list_dir_concatenates_pages (m : AWSCloudManager) (b pfx : String)
    (pages : List S3Page) :
    (m.list_dir b pfx pages).1
        = (pages.map (fun p => (p.Contents.getD []).map S3Obj.Key)).flatten
      ∧ ∀ rest : List S3Page,
          listKeys ({ Contents := none } :: rest) = listKeys rest := by
  constructor
  · show listKeys pages = _
    induction pages with
    | nil => rfl
    | cons p rest ih => simp [listKeys, ih]
  · intro rest
    simp [listKeys]

/-- C3. For any pool selection that succeeds with sessionmaker `sm`: a body
that returns commits (and, when the commit succeeds, the scope is exactly
create-commit-close with the body's value as result); a body that raises has
its session rolled back, and when the rollback returns normally the original
exception is re-raised unchanged; and on every exit path the last thing done
to the session is `close()`. -/
theorem C3_session_commit_rollback_close (db : Database) (readonly : Bool)
    (sm : Sessionmaker) {ε α : Type} (beh : SessionBehavior ε α)
    (hsel : db.chooseSessionmaker readonly = some sm) :
    (∀ a : α, beh.body = Except.ok a →
        DBEvent.commit sm ∈ (db.sessionScope readonly beh).1
          ∧ (beh.commitResult = none →
              db.sessionScope readonly beh
                = ([DBEvent.createSession sm, DBEvent.commit sm, DBEvent.close sm],
                    ScopeResult.ok a)))
      ∧ (∀ e : ε, beh.body = Except.error e →
          DBEvent.rollback sm ∈ (db.sessionScope readonly beh).1
            ∧ (beh.rollbackResult = none →
                (db.sessionScope readonly beh).2 = ScopeResult.raised e))
      ∧ (db.sessionScope readonly beh).1.getLast? = some (DBEvent.close sm) := by
  unfold Database.sessionScope
  rw [hsel]
  obtain ⟨body, cr, rr⟩ := beh
  cases body <;> cases cr <;> cases rr <;>
    simp [runScope, List.getLast?]

theorem C3_witness :
    (Database.init "sqlite:///:memory:" none).sessionScope false
        ({ body := Except.ok 7, commitResult := none, rollbackResult := none } :
          SessionBehavior String Nat)
      = ([DBEvent.createSession (sessionmaker (create_engine "sqlite:///:memory:")),
          DBEvent.commit (sessionmaker (create_engine "sqlite:///:memory:")),
          DBEvent.close (sessionmaker (create_engine "sqlite:///:memory:"))],
          ScopeResult.ok 7) := by
  exact ((C3_session_commit_rollback_close (Database.init "sqlite:///:memory:" none)
    false (sessionmaker (create_engine "sqlite:///:memory:"))
    ({ body := Except.ok 7, commitResult := none, rollbackResult := none } :
      SessionBehavior String Nat) rfl).1 7 rfl).2 rfl

/-- A concrete AWS manager used by witnesses. -/
def sampleAWS : AWSCloudManager :=
  AWSCloudManager.init
    { aws_region_name := some "eu-west-1", aws_access_key_id := none,
      aws_secret_key_id := none, aws_session_token := none,
      aws_profile_name := some "p" }

/-- A concrete facade whose `_manager` cache is populated with `sampleAWS`. -/
def sampleCM : CloudManager :=
  { _provider := ProviderTag.aws
    _config := { aws_region_name := some "eu-west-1", aws_access_key_id := none,
                 aws_secret_key_id := none, aws_session_token := none,
                 aws_profile_name := some "p" }
    _manager := some sampleAWS }

/-- C6. Once the facade's `_manager` cache holds a concrete client `m`, every
public operation of `CloudManager` is exactly the same-named operation of `m`
on the same arguments: same event trace, same returned keys, no error, and
the only state change is writing the client's own new state back into the
cache slot. -/
theorem C6_facade_is_pure_forward (cm : CloudManager) (m : AWSCloudManager)
    (hm : cm._manager = some m) :
    (∀ fp b k, cm.upload_object fp b k
        = (none, { cm with _manager := some (m.upload_object fp b k).1 },
            (m.upload_object fp b k).2))
      ∧ (∀ b k fp, cm.download_object b k fp
          = (none, { cm with _manager := some (m.download_object b k fp).1 },
              (m.download_object b k fp).2))
      ∧ (∀ b k dk d, cm.move_object b k dk d
          = (none, { cm with _manager := some (m.move_object b k dk d).1 },
              (m.move_object b k dk d).2))
      ∧ (∀ b k db dk d, cm.transfer_object b k db dk d
          = (none, { cm with _manager := some (m.transfer_object b k db dk d).1 },
              (m.transfer_object b k db dk d).2))
      ∧ (∀ b k, cm.delete_object b k
          = (none, { cm with _manager := some (m.delete_object b k).1 },
              (m.delete_object b k).2))
      ∧ (∀ b pfx pages, cm.list_dir b pfx pages
          = (none, (m.list_dir b pfx pages).1,
              { cm with _manager := some (m.list_dir b pfx pages).2.1 },
              (m.list_dir b pfx pages).2.2)) := by
  have hmgr : cm.manager = (some m, cm, []) := by
    unfold CloudManager.manager
    rw [hm]
  refine ⟨?_, ?_, ?_, ?_, ?_, ?_⟩ <;> intros <;>
    simp [CloudManager.upload_object, CloudManager.download_object,
      CloudManager.move_object, CloudManager.transfer_object,
      CloudManager.delete_object, CloudManager.list_dir, hmgr]

theorem C6_witness :
    sampleCM.delete_object "b" "k"
      = (none, { sampleCM with _manager := some (sampleAWS.delete_object "b" "k").1 },
          (sampleAWS.delete_object "b" "k").2) := by
  exact (C6_facade_is_pure_forward sampleCM sampleAWS rfl).2.2.2.2.1 "b" "k"

/-- The S3 client that `s3_client` constructs from the stored fields of a
manager initialised from `cfg`. -/
def cachedS3 (cfg : AWSConfig) : S3Client :=
  { profile_name := cfg.aws_profile_name
    region_name := cfg.aws_region_name.getD "us-east-1" }

/-- The AWS manager state once its client cache has been filled. -/
def cachedAWS (cfg : AWSConfig) : AWSCloudManager :=
  { AWSCloudManager.init cfg with _s3_client := some (cachedS3 cfg) }

/-- The facade state reached after the first operation call: the `_manager`
cache holds the AWS manager whose own `_s3_client` cache is filled. -/
def cachedCM (cfg : AWSConfig) : CloudManager :=
  { _provider := ProviderTag.aws, _config := cfg, _manager := some (cachedAWS cfg) }

/-- Unfolding lemma for `CloudManager.runOps` on a cons. -/
theorem CloudManager.runOps_cons (cm : CloudManager) (op : Op) (rest : List Op) :
    cm.runOps (op :: rest)
      = (match (cm.runOp op).1 with
         | some e => (some e, (cm.runOp op).2.1, (cm.runOp op).2.2)
         | none =>
           (((cm.runOp op).2.1.runOps rest).1, ((cm.runOp op).2.1.runOps rest).2.1,
             (cm.runOp op).2.2 ++ ((cm.runOp op).2.1.runOps rest).2.2)) := rfl

/-- The first operation call on a fresh AWS-tagged facade succeeds, leaves the
state fully cached, and its trace contains exactly one manager construction
and one S3-client construction. -/
theorem runOp_first (cfg : AWSConfig) (op : Op) :
    ∃ evs, (CloudManager.init ProviderTag.aws cfg).runOp op = (none, cachedCM cfg, evs)
      ∧ countManagerConstructs evs = 1 ∧ countClientConstructs evs = 1 := by
  cases op with
  | upload fp b k => exact ⟨_, rfl, rfl, rfl⟩
  | download b k fp => exact ⟨_, rfl, rfl, rfl⟩
  | move b k dk d => cases d <;> exact ⟨_, rfl, rfl, rfl⟩
  | transfer b k db dk d => cases d <;> exact ⟨_, rfl, rfl, rfl⟩
  | delete b k => exact ⟨_, rfl, rfl, rfl⟩
  | listDir b pfx pages => exact ⟨_, rfl, rfl, rfl⟩

/-- An operation on the fully cached facade succeeds, constructs nothing, and
leaves the state unchanged. -/
theorem runOp_cached (cfg : AWSConfig) (op : Op) :
    ∃ evs, (cachedCM cfg).runOp op = (none, cachedCM cfg, evs)
      ∧ countManagerConstructs evs = 0 ∧ countClientConstructs evs = 0 := by
  cases op with
  | upload fp b k => exact ⟨_, rfl, rfl, rfl⟩
  | download b k fp => exact ⟨_, rfl, rfl, rfl⟩
  | move b k dk d => cases d <;> exact ⟨_, rfl, rfl, rfl⟩
  | transfer b k db dk d => cases d <;> exact ⟨_, rfl, rfl, rfl⟩
  | delete b k => exact ⟨_, rfl, rfl, rfl⟩
  | listDir b pfx pages => exact ⟨_, rfl, rfl, rfl⟩

/-- Any sequence of operations on the fully cached facade succeeds, constructs
nothing, and leaves the state unchanged. -/
theorem runOps_cached (cfg : AWSConfig) (ops : List Op) :
    ∃ evs, (cachedCM cfg).runOps ops = (none, cachedCM cfg, evs)
      ∧ countManagerConstructs evs = 0 ∧ countClientConstructs evs = 0 := by
  induction ops with
  | nil => exact ⟨[], rfl, rfl, rfl⟩
  | cons op rest ih =>
    obtain ⟨evs2, he2, h23, h24⟩ := ih
    obtain ⟨evs1, he1, h13, h14⟩ := runOp_cached cfg op
    refine ⟨evs1 ++ evs2, ?_, ?_, ?_⟩
    · simp only [CloudManager.runOps_cons, he1]
      rw [he2]
    · rw [countManagerConstructs_append, h13, h23]
    · rw [countClientConstructs_append, h14, h24]

/-- C5. From a fresh `CloudManager` built with the (sole) enum provider: the
`_manager` cache starts unset and the S3 client cache of a freshly constructed
`AWSCloudManager` starts unset (lazy, nothing is built at construction time);
the first operation call succeeds and performs exactly one concrete-manager
construction and exactly one S3-client construction, leaving the state
`cachedCM cfg` (both caches filled); and every subsequent sequence of
operation calls performs zero constructions of either kind and leaves that
cached state untouched — the same cached client is reused throughout. -/
theorem C5_lazy_construction_cached_once (p : CloudProvider) (cfg : AWSConfig)
    (op : Op) (ops : List Op) :
    (CloudManager.init p.toTag cfg)._manager = none
      ∧ (AWSCloudManager.init cfg)._s3_client = none
      ∧ ∃ evs1 evs2,
          (CloudManager.init p.toTag cfg).runOp op = (none, cachedCM cfg, evs1)
            ∧ countManagerConstructs evs1 = 1 ∧ countClientConstructs evs1 = 1
            ∧ (cachedCM cfg).runOps ops = (none, cachedCM cfg, evs2)
            ∧ countManagerConstructs evs2 = 0 ∧ countClientConstructs evs2 = 0
            ∧ (CloudManager.init p.toTag cfg).runOps (op :: ops)
              = (none, cachedCM cfg, evs1 ++ evs2) := by
  cases p
  simp only [CloudProvider.toTag]
  refine ⟨rfl, rfl, ?_⟩
  obtain ⟨evs1, h1, h11, h12⟩ := runOp_first cfg op
  obtain ⟨evs2, h2, h21, h22⟩ := runOps_cached cfg ops
  refine ⟨evs1, evs2, h1, h11, h12, h2, h21, h22, ?_⟩
  simp only [CloudManager.runOps_cons, h1]
  rw [h2]

/-- Two AWS manager states agree on everything the SDK ever sees: the region,
the profile, and the cached client.  (The stored credential fields are
deliberately absent.) -/
def sdkEq (m1 m2 : AWSCloudManager) : Prop :=
  m1.region_name = m2.region_name ∧ m1.profile_name = m2.profile_name
    ∧ m1._s3_client = m2._s3_client

theorem s3_client_congr (m1 m2 : AWSCloudManager) (h : sdkEq m1 m2) :
    (m1.s3_client).1 = (m2.s3_client).1
      ∧ sdkEq (m1.s3_client).2.1 (m2.s3_client).2.1
      ∧ (m1.s3_client).2.2 = (m2.s3_client).2.2 := by
  obtain ⟨h1, h2, h3⟩ := h
  cases hc : m1._s3_client with
  | some c =>
    have hc2 : m2._s3_client = some c := by rw [← h3]; exact hc
    simp [AWSCloudManager.s3_client, hc, hc2, sdkEq, h1, h2, h3]
  | none =>
    have hc2 : m2._s3_client = none := by rw [← h3]; exact hc
    simp [AWSCloudManager.s3_client, hc, hc2, sdkEq, h1, h2]

theorem upload_object_congr (m1 m2 : AWSCloudManager) (h : sdkEq m1 m2)
    (fp b k : String) :
    sdkEq (m1.upload_object fp b k).1 (m2.upload_object fp b k).1
      ∧ (m1.upload_object fp b k).2 = (m2.upload_object fp b k).2 := by
  obtain ⟨hcl, hst, hev⟩ := s3_client_congr m1 m2 h
  exact ⟨hst, by simp [AWSCloudManager.upload_object, hev, hcl]⟩

theorem download_object_congr (m1 m2 : AWSCloudManager) (h : sdkEq m1 m2)
    (b k fp : String) :
    sdkEq (m1.download_object b k fp).1 (m2.download_object b k fp).1
      ∧ (m1.download_object b k fp).2 = (m2.download_object b k fp).2 := by
  obtain ⟨hcl, hst, hev⟩ := s3_client_congr m1 m2 h
  exact ⟨hst, by simp [AWSCloudManager.download_object, hev, hcl]⟩

theorem delete_object_congr (m1 m2 : AWSCloudManager) (h : sdkEq m1 m2)
    (b k : String) :
    sdkEq (m1.delete_object b k).1 (m2.delete_object b k).1
      ∧ (m1.delete_object b k).2 = (m2.delete_object b k).2 := by
  obtain ⟨hcl, hst, hev⟩ := s3_client_congr m1 m2 h
  exact ⟨hst, by simp [AWSCloudManager.delete_object, hev, hcl]⟩

theorem move_object_congr (m1 m2 : AWSCloudManager) (h : sdkEq m1 m2)
    (b k dk : String) (d : Bool) :
    sdkEq (m1.move_object b k dk d).1 (m2.move_object b k dk d).1
      ∧ (m1.move_object b k dk d).2 = (m2.move_object b k dk d).2 := by
  obtain ⟨hst, hev⟩ := upload_object_congr m1 m2 h b k dk
  obtain ⟨hst2, hev2⟩ := delete_object_congr _ _ hst b k
  unfold AWSCloudManager.move_object
  cases d
  · exact ⟨hst, hev⟩
  · exact ⟨hst2, by simp only [AWSCloudManager.move_object]; simp [hev, hev2]⟩

theorem transfer_object_congr (m1 m2 : AWSCloudManager) (h : sdkEq m1 m2)
    (b k db dk : String) (d : Bool) :
    sdkEq (m1.transfer_object b k db dk d).1 (m2.transfer_object b k db dk d).1
      ∧ (m1.transfer_object b k db dk d).2 = (m2.transfer_object b k db dk d).2 := by
  obtain ⟨hcl, hst, hev⟩ := s3_client_congr m1 m2 h
  obtain ⟨hst2, hev2⟩ := delete_object_congr _ _ hst b k
  unfold AWSCloudManager.transfer_object
  cases d
  · exact ⟨hst, by simp [hev, hcl]⟩
  · exact ⟨hst2, by simp [hev, hcl, hev2]⟩

theorem list_dir_congr (m1 m2 : AWSCloudManager) (h : sdkEq m1 m2)
    (b pfx : String) (pages : List S3Page) :
    (m1.list_dir b pfx pages).1 = (m2.list_dir b pfx pages).1
      ∧ sdkEq (m1.list_dir b pfx pages).2.1 (m2.list_dir b pfx pages).2.1
      ∧ (m1.list_dir b pfx pages).2.2 = (m2.list_dir b pfx pages).2.2 := by
  obtain ⟨hcl, hst, hev⟩ := s3_client_congr m1 m2 h
  exact ⟨rfl, hst, by simp [AWSCloudManager.list_dir, hev, hcl]⟩

theorem runOp_congr (m1 m2 : AWSCloudManager) (h : sdkEq m1 m2) (op : Op) :
    sdkEq (m1.runOp op).1 (m2.runOp op).1 ∧ (m1.runOp op).2 = (m2.runOp op).2 := by
  cases op with
  | upload fp b k => exact upload_object_congr m1 m2 h fp b k
  | download b k fp => exact download_object_congr m1 m2 h b k fp
  | move b k dk d => exact move_object_congr m1 m2 h b k dk d
  | transfer b k db dk d => exact transfer_object_congr m1 m2 h b k db dk d
  | delete b k => exact delete_object_congr m1 m2 h b k
  | listDir b pfx pages => exact (list_dir_congr m1 m2 h b pfx pages).2

theorem runOps_congr (m1 m2 : AWSCloudManager) (h : sdkEq m1 m2) (ops : List Op) :
    sdkEq (m1.runOps ops).1 (m2.runOps ops).1
      ∧ (m1.runOps ops).2 = (m2.runOps ops).2 := by
  induction ops generalizing m1 m2 with
  | nil => exact ⟨h, rfl⟩
  | cons op rest ih =>
    obtain ⟨hst, hev⟩ := runOp_congr m1 m2 h op
    obtain ⟨ihst, ihev⟩ := ih (m1.runOp op).1 (m2.runOp op).1 hst
    exact ⟨ihst, by simp [AWSCloudManager.runOps, hev, ihev]⟩

/-- C9. The stored credential fields (`aws_access_key_id`,
`aws_secret_key_id`, `aws_session_token`) are never passed to the SDK: two
managers initialised from configurations that agree on the region and profile
fields but carry arbitrary credentials construct the same S3 client and emit
identical SDK traces for every operation sequence. -/
theorem C9_credentials_never_reach_sdk (rg a1 s1 t1 a2 s2 t2 pf : Option String)
    (ops : List Op) :
    ((AWSCloudManager.init ⟨rg, a1, s1, t1, pf⟩).runOps ops).2
        = ((AWSCloudManager.init ⟨rg, a2, s2, t2, pf⟩).runOps ops).2
      ∧ ((AWSCloudManager.init ⟨rg, a1, s1, t1, pf⟩).s3_client).1
        = ((AWSCloudManager.init ⟨rg, a2, s2, t2, pf⟩).s3_client).1 := by
  have h0 : sdkEq (AWSCloudManager.init ⟨rg, a1, s1, t1, pf⟩)
      (AWSCloudManager.init ⟨rg, a2, s2, t2, pf⟩) := ⟨rfl, rfl, rfl⟩
  exact ⟨(runOps_congr _ _ h0 ops).2, (s3_client_congr _ _ h0).1⟩

theorem hasSub_append_right (sub l2 : List Char) (h : hasSub sub l2 = true)
    (l1 : List Char) : hasSub sub (l1 ++ l2) = true := by
  induction l1 with
  | nil => simpa using h
  | cons c rest ih => simp [hasSub, ih]

/-- C8 counterexample: a missing selector raises
`ValueError("CLOUD_PROVIDER environment variable is not set")`, whose message
does not name the valid providers (it does not even contain `"aws"`), contrary
to the claim that missing and unrecognized selectors both fail with an error
naming the valid providers. -/
theorem C8_counterexample :
    Config.cloud_provider none
        = Except.error "CLOUD_PROVIDER environment variable is not set"
      ∧ mentions "CLOUD_PROVIDER environment variable is not set" "aws" = false := by
  exact ⟨rfl, by decide⟩

/-- C8 (amended). The selector accepts exactly one recognized value,
case-insensitively: `cloud_provider` succeeds on a supplied string `t` iff
`t.lower() == "aws"`.  A missing (or empty) selector fails with a
configuration error that does not name the valid providers; an unrecognized
one fails with a configuration error whose message names the valid providers;
and whenever the selector fails, the archiver's cloud step propagates that
error, so no `CloudManager` is constructed and no operation is attempted. -/
theorem C8_amended_provider_selector (s : String) (cfg : AWSConfig)
    (hs : s ≠ "") (hinv : pyLower s ≠ "aws") :
    (∀ t : String,
        Config.cloud_provider (some t) = Except.ok CloudProvider.aws
          ↔ pyLower t = "aws")
      ∧ Config.cloud_provider none
          = Except.error "CLOUD_PROVIDER environment variable is not set"
      ∧ Config.cloud_provider (some "")
          = Except.error "CLOUD_PROVIDER environment variable is not set"
      ∧ mentions "CLOUD_PROVIDER environment variable is not set" "aws" = false
      ∧ Config.cloud_provider (some s)
          = Except.error ("Invalid cloud provider: " ++ s ++ ". Valid providers: ['aws']")
      ∧ mentions ("Invalid cloud provider: " ++ s ++ ". Valid providers: ['aws']") "aws" = true
      ∧ (∀ (pn : Option String) (e : String),
          Config.cloud_provider pn = Except.error e →
            archiverCloudStep pn cfg = Except.error e) := by
  refine ⟨?_, rfl, rfl, by decide, ?_, ?_, ?_⟩
  · intro t
    by_cases ht : t = ""
    · subst ht
      simp only [Config.cloud_provider, if_pos rfl]
      constructor
      · intro h
        exact absurd h (by simp)
      · intro h
        exact absurd h (by decide)
    · by_cases hl : pyLower t = "aws"
      · simp [Config.cloud_provider, CloudProvider.fromValue, ht, hl]
      · simp [Config.cloud_provider, CloudProvider.fromValue, ht, hl]
  · simp [Config.cloud_provider, CloudProvider.fromValue, hs, hinv]
  · show hasSub _ _ = true
    show hasSub ("aws".data) _ = true
    have hd : ("Invalid cloud provider: " ++ s ++ ". Valid providers: ['aws']").data
        = ("Invalid cloud provider: ".data ++ s.data) ++ ". Valid providers: ['aws']".data := by
      simp [String.data_append]
    rw [hd]
    exact hasSub_append_right _ _ (by decide) _
  · intro pn e h
    simp [archiverCloudStep, h]

theorem C8_witness :
    Config.cloud_provider (some "AwS") = Except.ok CloudProvider.aws
      ∧ Config.cloud_provider (some "azure")
        = Except.error ("Invalid cloud provider: " ++ "azure" ++ ". Valid providers: ['aws']") := by
  have h := C8_amended_provider_selector "azure"
    { aws_region_name := none, aws_access_key_id := none, aws_secret_key_id := none,
      aws_session_token := none, aws_profile_name := none }
    (by decide) (by decide)
  exact ⟨(h.1 "AwS").mpr (by decide), h.2.2.2.2.1⟩

theorem splitAtFirstSlash_append (l k : List Char) (h : ('/' : Char) ∉ l) :
    splitAtFirstSlash (l ++ '/' :: k) = some (l, k) := by
  induction l with
  | nil => simp [splitAtFirstSlash]
  | cons c rest ih =>
    have hc : ¬ c = '/' := fun hceq => h (by simp [hceq])
    have hrest : ('/' : Char) ∉ rest := fun hm => h (List.mem_cons_of_mem _ hm)
    simp [splitAtFirstSlash, if_neg hc, ih hrest]

theorem parseCopySource_append (b k : String) (h : ('/' : Char) ∉ b.data) :
    parseCopySource (b ++ "/" ++ k) = some (b, k) := by
  unfold parseCopySource
  have hd : (b ++ "/" ++ k).data = b.data ++ '/' :: k.data := by
    simp [String.data_append]
  rw [hd, splitAtFirstSlash_append _ _ h]
  rfl

/-- The S3 API calls of `transfer_object`: one `copy_object` with the
formatted copy source, then a `delete_object` of the source exactly when
`delete_source` is true. -/
theorem transfer_object_s3Calls (m : AWSCloudManager)
    (b k db dk : String) (d : Bool) :
    s3Calls (m.transfer_object b k db dk d).2
      = S3Api.copy_object db dk (b ++ "/" ++ k)
          :: (if d then [S3Api.delete_object b k] else []) := by
  cases h : m._s3_client <;> cases d <;>
    simp [AWSCloudManager.transfer_object, AWSCloudManager.delete_object,
      AWSCloudManager.s3_client, h, s3Calls, Ev.toApi]

/-- C7 (amended).  Assume the source object exists (`σ (b1, k) = some v`) and
`b1` is a well-formed bucket name (no `/`).  Then interpreting the S3 calls of
`transfer_object b1 k b2 k2 d` against the store: with `d = false` the store
gains the object at `(b2, k2)` and still has it at `(b1, k)` (present at
both); with `d = true` and `(b1, k) ≠ (b2, k2)` the object exists at
`(b2, k2)` and is absent at `(b1, k)`.  The distinctness proviso is the
amendment: at `(b1, k) = (b2, k2)` the copy-then-delete removes the object,
contradicting the original claim (see the counterexample). -/
theorem C7_amended_transfer_copies_then_deletes (m : AWSCloudManager)
    (fs : FileSys) (σ : Store) (b1 k b2 k2 v : String)
    (hsrc : σ (b1, k) = some v) (hb : ('/' : Char) ∉ b1.data) :
    (S3Api.applyAll fs σ (s3Calls (m.transfer_object b1 k b2 k2 false).2)
        = some (σ.set (b2, k2) (some v))
      ∧ (σ.set (b2, k2) (some v)) (b2, k2) = some v
      ∧ (σ.set (b2, k2) (some v)) (b1, k) = some v)
      ∧ ((b1, k) ≠ (b2, k2) →
          S3Api.applyAll fs σ (s3Calls (m.transfer_object b1 k b2 k2 true).2)
              = some ((σ.set (b2, k2) (some v)).set (b1, k) none)
            ∧ ((σ.set (b2, k2) (some v)).set (b1, k) none) (b2, k2) = some v
            ∧ ((σ.set (b2, k2) (some v)).set (b1, k) none) (b1, k) = none) := by
  have hparse := parseCopySource_append b1 k hb
  constructor
  · refine ⟨?_, ?_, ?_⟩
    · rw [transfer_object_s3Calls]
      simp [S3Api.applyAll, S3Api.apply, hparse, hsrc]
    · simp [Store.set]
    · by_cases he : (b1, k) = (b2, k2)
      · simp [Store.set, he]
      · simp [Store.set, if_neg he, hsrc]
  · intro hne
    refine ⟨?_, ?_, ?_⟩
    · rw [transfer_object_s3Calls]
      simp [S3Api.applyAll, S3Api.apply, hparse, hsrc]
    · have hne2 : ¬ ((b2, k2) = (b1, k)) := fun he => hne he.symm
      simp only [Store.set]
      rw [if_neg hne2]
      simp
    · simp [Store.set]

/-- A one-object store holding `"v"` at bucket `"b"`, key `"k"`. -/
def sampleStore : Store := fun l => if l = ("b", "k") then some "v" else none

/-- An empty local filesystem. -/
def emptyFS : FileSys := fun _ => none

/-- A fresh AWS manager built from an empty configuration. -/
def emptyAWS : AWSCloudManager :=
  AWSCloudManager.init
    { aws_region_name := none, aws_access_key_id := none, aws_secret_key_id := none,
      aws_session_token := none, aws_profile_name := none }

/-- C7 counterexample: at `b1 = b2 = "b"`, `k = k2 = "k"`,
`deleteSource = true` — instances the claim quantifies over — the
copy-then-delete sequence leaves the store with *no* object at `(b2, k2)`,
contradicting the claim that the object exists at `(b2, k2)` after a
`deleteSource=true` transfer. -/
theorem C7_counterexample :
    (S3Api.applyAll emptyFS sampleStore
        (s3Calls (emptyAWS.transfer_object "b" "k" "b" "k" true).2)).map
        (fun σ2 => σ2 ("b", "k"))
      = some none := by
  rfl

theorem C7_witness :
    S3Api.applyAll emptyFS sampleStore
        (s3Calls (emptyAWS.transfer_object "b" "k" "c" "k2" true).2)
      = some ((sampleStore.set (("c", "k2")) (some "v")).set (("b", "k")) none) := by
  exact ((C7_amended_transfer_copies_then_deletes emptyAWS emptyFS sampleStore
    "b" "k" "c" "k2" "v" rfl (by decide)).2 (by decide)).1
